import Mathlib

/-!
Verification of the gesture-driven particle simulation engine
(gesture classifier, gesture event dispatcher, particle physics
integrator, firework burst sub-simulation, shape generators).

Coordinates and times are modelled exactly: the classifier, dispatcher
and firework lifecycle use `ℚ`; the particle physics integrator, whose
source takes Euclidean vector lengths, is modelled over `ℝ` with
`Real.sqrt`.
-/

/-! ## Gesture detection thresholds (src/unnamed/part_000, GESTURE_THRESHOLDS) -/

namespace GESTURE_THRESHOLDS

def INDEX_CURLED : ℚ := 0.12

def MIDDLE_CURLED : ℚ := 0.12

def RING_CURLED : ℚ := 0.12

def PINKY_CURLED : ℚ := 0.12

def THUMB_CURLED : ℚ := 0.18

def INDEX_EXTENDED : ℚ := 0.15

def MIDDLE_EXTENDED : ℚ := 0.15

def RING_EXTENDED : ℚ := 0.15

def PINKY_EXTENDED : ℚ := 0.15

end GESTURE_THRESHOLDS

/-! ## Gesture classifier (src/components/GestureTree.tsx, calculateFingerStates) -/

/-- One hand landmark; the classifier reads only the `x` and `y`
coordinates of a landmark. -/
structure Landmark where
  x : ℚ
  y : ℚ
  deriving DecidableEq, Repr

/-- The record returned by `calculateFingerStates`. -/
structure FingerState where
  wrist : Landmark
  thumbTip : Landmark
  indexTip : Landmark
  middleTip : Landmark
  ringTip : Landmark
  pinkyTip : Landmark
  palmBase : Landmark
  fingersCurled : ℕ
  fingersExtended : ℕ
  isFist : Bool
  isOneFinger : Bool
  isTwoFingers : Bool
  isThreeFingers : Bool
  deriving DecidableEq, Repr

/-- Classifier `calculateFingerStates` from src/components/GestureTree.tsx.
Returns `none` when fewer than 21 landmarks are supplied; otherwise
reads indices 0, 4, 8, 12, 16, 20 and 9 (presence guaranteed by the
length guard, so `getD` always hits a real element) and derives the
curl/extension flags and gesture booleans. -/
def calculateFingerStates (landmarks : List Landmark) : Option FingerState :=
  if landmarks.length < 21 then none else
  let wrist := landmarks.getD 0 ⟨0, 0⟩
  let thumbTip := landmarks.getD 4 ⟨0, 0⟩
  let indexTip := landmarks.getD 8 ⟨0, 0⟩
  let middleTip := landmarks.getD 12 ⟨0, 0⟩
  let ringTip := landmarks.getD 16 ⟨0, 0⟩
  let pinkyTip := landmarks.getD 20 ⟨0, 0⟩
  let palmBase := landmarks.getD 9 ⟨0, 0⟩
  let indexCurled := decide (|indexTip.y - palmBase.y| < GESTURE_THRESHOLDS.INDEX_CURLED)
  let middleCurled := decide (|middleTip.y - palmBase.y| < GESTURE_THRESHOLDS.MIDDLE_CURLED)
  let ringCurled := decide (|ringTip.y - palmBase.y| < GESTURE_THRESHOLDS.RING_CURLED)
  let pinkyCurled := decide (|pinkyTip.y - palmBase.y| < GESTURE_THRESHOLDS.PINKY_CURLED)
  let thumbCurled := decide (|thumbTip.y - palmBase.y| < GESTURE_THRESHOLDS.THUMB_CURLED)
  let indexExtended := decide (|indexTip.y - palmBase.y| > GESTURE_THRESHOLDS.INDEX_EXTENDED)
  let middleExtended := decide (|middleTip.y - palmBase.y| > GESTURE_THRESHOLDS.MIDDLE_EXTENDED)
  let ringExtended := decide (|ringTip.y - palmBase.y| > GESTURE_THRESHOLDS.RING_EXTENDED)
  let pinkyExtended := decide (|pinkyTip.y - palmBase.y| > GESTURE_THRESHOLDS.PINKY_EXTENDED)
  let fingersCurled :=
    (List.filter (fun x => x) [indexCurled, middleCurled, ringCurled, pinkyCurled]).length
  let fingersExtended :=
    (List.filter (fun x => x) [indexExtended, middleExtended, ringExtended, pinkyExtended]).length
  let isFist := decide (fingersCurled ≥ 3) && thumbCurled
  let isOneFinger := indexExtended && !middleExtended && !ringExtended && !pinkyExtended
  let isTwoFingers := indexExtended && middleExtended && !ringExtended && !pinkyExtended
  let isThreeFingers := indexExtended && middleExtended && ringExtended && !pinkyExtended
  some
    { wrist := wrist, thumbTip := thumbTip, indexTip := indexTip, middleTip := middleTip
      ringTip := ringTip, pinkyTip := pinkyTip, palmBase := palmBase
      fingersCurled := fingersCurled, fingersExtended := fingersExtended
      isFist := isFist, isOneFinger := isOneFinger
      isTwoFingers := isTwoFingers, isThreeFingers := isThreeFingers }

/-! ## Gesture event dispatcher (src/unnamed/part_001, onResults handler) -/

/-- Callbacks the dispatcher can invoke on a frame, in invocation
order.  `fist` carries the strength and the palm coordinates forwarded
to `onFistGesture`; `error` models `onError` (never reachable from the
`onResults` handler). -/
inductive GEvent where
  | oneFinger
  | twoFingers
  | threeFingers
  | fist (strength : ℚ) (palmX : ℚ) (palmY : ℚ)
  | noGesture
  | error (msg : String)
  deriving DecidableEq, Repr

/-- The three edge-trigger latches `wasOneFingerRef`, `wasTwoFingersRef`
and `wasThreeFingersRef`; all start `false`. -/
structure LatchState where
  wasOne : Bool
  wasTwo : Bool
  wasThree : Bool
  deriving DecidableEq, Repr

def initialLatches : LatchState := ⟨false, false, false⟩

/-- The gesture handling part of the `onResults` handler (the code run
once a frame classified successfully): the three edge-triggered
one-shot gestures followed by the continuous fist / no-gesture branch.
Returns the new latch state and the list of invoked callbacks in
invocation order. -/
def dispatchGestures (st : LatchState) (fs : FingerState) : LatchState × List GEvent :=
  let one :=
    if fs.isOneFinger && !st.wasOne then (true, [GEvent.oneFinger])
    else if !fs.isOneFinger then (false, ([] : List GEvent))
    else (st.wasOne, [])
  let two :=
    if fs.isTwoFingers && !st.wasTwo then (true, [GEvent.twoFingers])
    else if !fs.isTwoFingers then (false, ([] : List GEvent))
    else (st.wasTwo, [])
  let three :=
    if fs.isThreeFingers && !st.wasThree then (true, [GEvent.threeFingers])
    else if !fs.isThreeFingers then (false, ([] : List GEvent))
    else (st.wasThree, [])
  let tail :=
    if fs.isFist then
      [GEvent.fist ((fs.fingersCurled : ℚ) / 4) fs.palmBase.x fs.palmBase.y]
    else if !fs.isFist && !fs.isOneFinger && !fs.isTwoFingers && !fs.isThreeFingers then
      [GEvent.noGesture]
    else []
  (⟨one.1, two.1, three.1⟩, one.2 ++ two.2 ++ three.2 ++ tail)

/-- One whole invocation of the `onResults` handler.  The argument is
`results.multiHandLandmarks`: `none` models an absent field; an empty
list means no hand was detected.  When a hand is present the first
hand's landmark list is classified; a `none` classification makes the
handler return early, invoking nothing and leaving the latches
untouched. -/
def processFrame (st : LatchState) (multiHandLandmarks : Option (List (List Landmark))) :
    LatchState × List GEvent :=
  match multiHandLandmarks with
  | some hands =>
    if 0 < hands.length then
      match calculateFingerStates (hands.headD []) with
      | none => (st, [])
      | some fs => dispatchGestures st fs
    else (st, [GEvent.noGesture])
  | none => (st, [GEvent.noGesture])

/-- Run the `onResults` handler over a sequence of frames, returning
the callbacks invoked on each frame. -/
def runFrames (st : LatchState) : List (Option (List (List Landmark))) → List (List GEvent)
  | [] => []
  | f :: rest =>
    let r := processFrame st f
    r.2 :: runFrames r.1 rest

/-! ## Firework burst sub-simulation
(src/unnamed/part_000 FIREWORKS_CONFIG, src/ThreeScene.ts updateFireworks,
src/components/GestureTree.tsx createFireworkParticles) -/

namespace FIREWORKS_CONFIG

def LIFETIME : ℚ := 3.0

def GRAVITY : ℚ := 0.015

def AIR_RESISTANCE : ℚ := 0.97

end FIREWORKS_CONFIG

/-- Exact 3-vector used by the firework sub-simulation (one stride-3
slot of a position / velocity / color buffer). -/
structure Vec3q where
  x : ℚ
  y : ℚ
  z : ℚ
  deriving DecidableEq, Repr

/-- One burst entity as pushed by `createFireworkParticles`: particle
buffers plus lifecycle fields.  `released` records that the burst's
scene object was removed and its geometry and material disposed;
`opacity` mirrors the material opacity set by `updateFireworks`. -/
structure Firework where
  positions : List Vec3q
  velocities : List Vec3q
  colors : List Vec3q
  age : ℚ
  lifetime : ℚ
  active : Bool
  released : Bool
  opacity : ℚ
  layerIndex : ℕ
  deriving DecidableEq, Repr

/-- Per-particle physics of an active burst in `updateFireworks`:
integrate position by velocity, then apply the downward gravity
decrement to the vertical velocity and isotropic air resistance. -/
def stepFireworkPoint (p v : Vec3q) : Vec3q × Vec3q :=
  let p2 : Vec3q := ⟨p.x + v.x, p.y + v.y, p.z + v.z⟩
  let vy := v.y - FIREWORKS_CONFIG.GRAVITY
  (p2, ⟨v.x * FIREWORKS_CONFIG.AIR_RESISTANCE, vy * FIREWORKS_CONFIG.AIR_RESISTANCE,
        v.z * FIREWORKS_CONFIG.AIR_RESISTANCE⟩)

/-- Past 50% of lifetime each color channel is blended toward white by
`whiteMix = (ageFactor - 0.5) * 0.6`. -/
def blendFireworkColor (ageFactor : ℚ) (c : Vec3q) : Vec3q :=
  if ageFactor > 0.5 then
    let whiteMix := (ageFactor - 0.5) * 0.6
    ⟨c.x * (1 - whiteMix) + whiteMix, c.y * (1 - whiteMix) + whiteMix,
     c.z * (1 - whiteMix) + whiteMix⟩
  else c

/-- One `updateFireworks` tick for a single burst: inactive bursts are
skipped; otherwise the age advances by 0.016 and, past the lifetime,
the burst is deactivated and its render resources released
(`scene.remove` plus geometry/material `dispose`); while still alive
the particle buffers are integrated and the material opacity follows
the fade schedule. -/
def stepFirework (fw : Firework) : Firework :=
  if !fw.active then fw else
  let age2 := fw.age + 0.016
  if age2 > fw.lifetime then
    { fw with age := age2, active := false, released := true }
  else
    let pv := List.zipWith stepFireworkPoint fw.positions fw.velocities
    let ageFactor := age2 / fw.lifetime
    { fw with
      age := age2
      positions := pv.map Prod.fst
      velocities := pv.map Prod.snd
      colors := fw.colors.map (blendFireworkColor ageFactor)
      opacity := if ageFactor < 0.7 then 1 else 1 - (ageFactor - 0.7) / 0.3 }

/-- Tick function `ThreeScene.updateFireworks`: step every burst in the live set,
then filter out the inactive ones (`this.fireworks =
this.fireworks.filter(fw => fw.active)`). -/
def updateFireworks (fws : List Firework) : List Firework :=
  (fws.map stepFirework).filter (fun fw => fw.active)

/-- Iterated animation ticks of the firework live set. -/
def iterFireworks : ℕ → List Firework → List Firework
  | 0, l => l
  | n + 1, l => updateFireworks (iterFireworks n l)

/-- One row of the `layers` table in `createFireworkParticles`. -/
structure FireworkLayer where
  count : ℕ
  speed : ℚ
  size : ℚ
  delay : ℚ
  deriving DecidableEq, Repr

def fireworkLayers : List FireworkLayer :=
  [⟨200, 0.8, 0.8, 0⟩, ⟨150, 0.5, 0.6, 0.1⟩, ⟨100, 0.3, 0.4, 0.2⟩]

/-- The burst record pushed by one layer's delayed callback: fresh
particle buffers (their randomly sampled contents are taken as inputs
here), `age := 0`, `lifetime := 3.0`, `active := true`.  The scene
object exists and is not disposed, and the material opacity starts at
its default 1. -/
def mkLayerBurst (layerIndex : ℕ) (positions velocities colors : List Vec3q) : Firework :=
  { positions := positions, velocities := velocities, colors := colors
    age := 0, lifetime := 3.0, active := true, released := false
    opacity := 1, layerIndex := layerIndex }

/-- Spawner `createFireworkParticles`, with its JavaScript call timing made
explicit.  For each layer the function calls `setTimeout(cb,
layer.delay * 1000)`; a `setTimeout` callback — even one with delay 0 —
only runs after the current synchronous call stack has finished, so at
the moment the function returns its local `fireworks` array, that
array is still empty.  The result is therefore the pair of (the bursts
contained in the returned array at return time — none) and (the
delayed spawn actions, as delay/burst pairs, which will push into the
already-returned local array).  `sampled` provides layer `i`'s
randomly sampled position/velocity/color buffers. -/
def createFireworkParticles (sampled : ℕ → List Vec3q × List Vec3q × List Vec3q) :
    List Firework × List (ℚ × Firework) :=
  ([],
    fireworkLayers.enum.map (fun p =>
      (p.2.delay, mkLayerBurst p.1 (sampled p.1).1 (sampled p.1).2.1 (sampled p.1).2.2)))

/-- Trigger handler `ThreeScene.createFireworks`: `this.fireworks.push(...newFireworks)`
spreads the array returned by `createFireworkParticles` at the moment
of the call — before any of the delayed callbacks has run. -/
def threeSceneCreateFireworks (fireworks : List Firework)
    (sampled : ℕ → List Vec3q × List Vec3q × List Vec3q) : List Firework :=
  fireworks ++ (createFireworkParticles sampled).1

/-! ## Particle physics integrator (src/ThreeScene.ts, ThreeScene.update;
constants from src/unnamed/part_000, ANIMATION_CONFIG) -/

namespace ANIMATION_CONFIG

def GRAVITY_STRENGTH : ℝ := 0.35

def EXPLOSION_STRENGTH : ℝ := 0.25

def DAMPING : ℝ := 0.90

def BROWN_MOTION : ℝ := 0.03

end ANIMATION_CONFIG

/-- Real-valued 3-vector: one stride-3 slot of the live position or
velocity buffer, or of a target configuration. -/
structure Vec3 where
  x : ℝ
  y : ℝ
  z : ℝ

instance : Add Vec3 := ⟨fun a b => ⟨a.x + b.x, a.y + b.y, a.z + b.z⟩⟩

instance : Sub Vec3 := ⟨fun a b => ⟨a.x - b.x, a.y - b.y, a.z - b.z⟩⟩

instance : SMul ℝ Vec3 := ⟨fun c a => ⟨c * a.x, c * a.y, c * a.z⟩⟩

theorem Vec3.add_def (a b : Vec3) : a + b = ⟨a.x + b.x, a.y + b.y, a.z + b.z⟩ := rfl

theorem Vec3.sub_def (a b : Vec3) : a - b = ⟨a.x - b.x, a.y - b.y, a.z - b.z⟩ := rfl

theorem Vec3.smul_def (c : ℝ) (a : Vec3) : c • a = ⟨c * a.x, c * a.y, c * a.z⟩ := rfl

/-- Euclidean length, as computed by `THREE.Vector3.length()`. -/
noncomputable def vlength (v : Vec3) : ℝ := Real.sqrt (v.x ^ 2 + v.y ^ 2 + v.z ^ 2)

/-- Unit vector in the direction of `v` (the `normalize(d)` of the
spec's force description). -/
noncomputable def vnormalize (v : Vec3) : Vec3 := (vlength v)⁻¹ • v

/-- Bridge into `EuclideanSpace`, used to borrow norm lemmas. -/
def toE (v : Vec3) : EuclideanSpace ℝ (Fin 3) := ![v.x, v.y, v.z]

theorem vlength_eq_norm (v : Vec3) : vlength v = ‖toE v‖ := by
  rw [EuclideanSpace.norm_eq, vlength]
  congr 1
  rw [Fin.sum_univ_three]
  simp [toE, sq_abs]

theorem toE_add (a b : Vec3) : toE (a + b) = toE a + toE b := by
  funext i
  fin_cases i <;> simp [toE, Vec3.add_def]

theorem toE_smul (c : ℝ) (a : Vec3) : toE (c • a) = c • toE a := by
  funext i
  fin_cases i <;> simp [toE, Vec3.smul_def]

theorem vlength_nonneg (v : Vec3) : 0 ≤ vlength v := Real.sqrt_nonneg _

theorem vlength_smul (c : ℝ) (v : Vec3) : vlength (c • v) = |c| * vlength v := by
  rw [vlength_eq_norm, vlength_eq_norm, toE_smul, norm_smul, Real.norm_eq_abs]

theorem vlength_add_le (a b : Vec3) : vlength (a + b) ≤ vlength a + vlength b := by
  rw [vlength_eq_norm, vlength_eq_norm, vlength_eq_norm, toE_add]
  exact norm_add_le _ _

/-- Crude componentwise bound on the Euclidean length, enough for the
Brownian jitter term. -/
theorem vlength_le_of_abs_le {v : Vec3} {c : ℝ} (hx : |v.x| ≤ c) (hy : |v.y| ≤ c)
    (hz : |v.z| ≤ c) : vlength v ≤ 2 * c := by
  have hc : 0 ≤ c := le_trans (abs_nonneg _) hx
  have h1 : v.x ^ 2 + v.y ^ 2 + v.z ^ 2 ≤ (2 * c) ^ 2 := by
    have hx2 : v.x ^ 2 ≤ c ^ 2 := by
      rw [← sq_abs]
      exact pow_le_pow_left₀ (abs_nonneg _) hx 2
    have hy2 : v.y ^ 2 ≤ c ^ 2 := by
      rw [← sq_abs]
      exact pow_le_pow_left₀ (abs_nonneg _) hy 2
    have hz2 : v.z ^ 2 ≤ c ^ 2 := by
      rw [← sq_abs]
      exact pow_le_pow_left₀ (abs_nonneg _) hz 2
    nlinarith
  calc vlength v ≤ Real.sqrt ((2 * c) ^ 2) := Real.sqrt_le_sqrt h1
    _ = 2 * c := Real.sqrt_sq (by linarith)

/-- The per-particle velocity after force application of one
`ThreeScene.update` tick, before damping is applied (the body of the
per-particle loop up to the three `*= damping` lines).  `pinch` is
`this.pinchStrength`, `tree` and `expl` are the particle's slots of
`targetTree` and `targetExploded`, and `r1 r2 r3` are the three
`Math.random()` draws of the Brownian jitter (consumed only in the
non-pinching branch, as in the source). -/
noncomputable def velAfterForces (pinch : ℝ) (tree expl : Vec3) (r1 r2 r3 : ℝ)
    (s : Vec3 × Vec3) : Vec3 :=
  if pinch > 0.01 then
    let d := tree - s.1
    let dist := vlength d
    if dist > 0.01 then
      s.2 + ((ANIMATION_CONFIG.GRAVITY_STRENGTH * pinch) / dist) • d
    else s.2
  else
    let d := expl - s.1
    let dist := vlength d
    let v1 :=
      if dist > 0.01 then s.2 + (ANIMATION_CONFIG.EXPLOSION_STRENGTH / dist) • d
      else s.2
    v1 + ⟨(r1 - 0.5) * ANIMATION_CONFIG.BROWN_MOTION,
          (r2 - 0.5) * ANIMATION_CONFIG.BROWN_MOTION,
          (r3 - 0.5) * ANIMATION_CONFIG.BROWN_MOTION⟩

/-- One `ThreeScene.update` tick for one particle, acting on its
(position, velocity) pair: forces, then unconditional damping of every
velocity component, then Euler integration `position += velocity`. -/
noncomputable def updateParticle (pinch : ℝ) (tree expl : Vec3) (r1 r2 r3 : ℝ)
    (s : Vec3 × Vec3) : Vec3 × Vec3 :=
  let v2 := ANIMATION_CONFIG.DAMPING • velAfterForces pinch tree expl r1 r2 r3 s
  (s.1 + v2, v2)

/-- Iterated ticks driven by per-tick input streams: `pin n` is the
pinch strength read on tick `n` and `r1 r2 r3` the Brownian draws. -/
noncomputable def iterParticle (pin r1 r2 r3 : ℕ → ℝ) (tree expl : Vec3) :
    ℕ → Vec3 × Vec3 → Vec3 × Vec3
  | 0, s => s
  | n + 1, s =>
    updateParticle (pin n) tree expl (r1 n) (r2 n) (r3 n) (iterParticle pin r1 r2 r3 tree expl n s)

/-- The claimed scenario of physics convergence: pinch strength held
constant at 1 (hence zero Brownian motion — the pinching branch draws
no jitter). -/
noncomputable def iterPinchOne (tree expl : Vec3) (n : ℕ) (s : Vec3 × Vec3) : Vec3 × Vec3 :=
  iterParticle (fun _ => 1) (fun _ => 0) (fun _ => 0) (fun _ => 0) tree expl n s

/-! ## Noise and exploded-configuration generator
(src/components/GestureTree.tsx, noise3D / calculateExplodedParticlePositions) -/

/-- Hash-based pseudo-noise `noise3D`:
`frac(sin(x*12.9898 + y*78.233 + z*37.719) * 43758.5453)`. -/
noncomputable def noise3D (x y z : ℝ) : ℝ :=
  let n := Real.sin (x * 12.9898 + y * 78.233 + z * 37.719) * 43758.5453
  n - ⌊n⌋

/-- Exploded generator `calculateExplodedParticlePositions`, flattened stride-3 output.
The `rand` argument models the ambient random source (`Math.random`)
available to the generators; this generator never draws from it — its
body mentions `rand` nowhere — which is exactly the determinism
property under test. -/
noncomputable def calculateExplodedParticlePositions (rand : ℕ → ℝ) (particleCount : ℕ) :
    List ℝ :=
  (List.range particleCount).flatMap (fun i =>
    let spread : ℝ := 60
    let noiseX := noise3D i 0 0
    let noiseY := noise3D 0 i 0
    let noiseZ := noise3D 0 0 i
    [(noiseX - 0.5) * spread, (noiseY - 0.5) * spread, (noiseZ - 0.5) * spread])

/-! ## Helper lemmas about the dispatcher -/

/-- Exhaustive description of one `dispatchGestures` call: the latch
state afterwards records exactly the current conditions, each one-shot
callback is invoked once on a rising edge and never otherwise, the
no-gesture callback runs exactly on gesture-free frames, the fist
callback forwards `fingersCurled / 4` with the palm coordinates, and
`onError` is never invoked. -/
theorem dispatchGestures_spec (st : LatchState) (fs : FingerState) :
    (dispatchGestures st fs).1 = ⟨fs.isOneFinger, fs.isTwoFingers, fs.isThreeFingers⟩ ∧
    ((dispatchGestures st fs).2).count GEvent.oneFinger
      = (if fs.isOneFinger && !st.wasOne then 1 else 0) ∧
    ((dispatchGestures st fs).2).count GEvent.twoFingers
      = (if fs.isTwoFingers && !st.wasTwo then 1 else 0) ∧
    ((dispatchGestures st fs).2).count GEvent.threeFingers
      = (if fs.isThreeFingers && !st.wasThree then 1 else 0) ∧
    (GEvent.noGesture ∈ (dispatchGestures st fs).2 ↔
      (fs.isFist = false ∧ fs.isOneFinger = false ∧ fs.isTwoFingers = false ∧
        fs.isThreeFingers = false)) ∧
    (∀ s x y, GEvent.fist s x y ∈ (dispatchGestures st fs).2 ↔
      (fs.isFist = true ∧ s = (fs.fingersCurled : ℚ) / 4 ∧ x = fs.palmBase.x ∧
        y = fs.palmBase.y)) ∧
    (∀ msg, GEvent.error msg ∉ (dispatchGestures st fs).2) := by
  cases h1 : fs.isOneFinger <;> cases h2 : fs.isTwoFingers <;> cases h3 : fs.isThreeFingers <;>
    cases h4 : fs.isFist <;> cases w1 : st.wasOne <;> cases w2 : st.wasTwo <;>
      cases w3 : st.wasThree <;>
        simp [dispatchGestures, h1, h2, h3, h4, w1, w2, w3, List.count_cons, List.count_nil,
          and_comm]

theorem processFrame_some_classified (st : LatchState) (h : List Landmark)
    (hs : List (List Landmark)) (fs : FingerState) (hc : calculateFingerStates h = some fs) :
    processFrame st (some (h :: hs)) = dispatchGestures st fs := by
  simp [processFrame, hc]

theorem processFrame_some_unclassified (st : LatchState) (h : List Landmark)
    (hs : List (List Landmark)) (hc : calculateFingerStates h = none) :
    processFrame st (some (h :: hs)) = (st, []) := by
  simp [processFrame, hc]

/-! ## Concrete landmark sets used by witnesses and counterexamples -/

/-- A 21-landmark hand whose relevant slots (0 wrist, 4 thumb tip,
8 index tip, 12 middle tip, 16 ring tip, 20 pinky tip, 9 palm base)
carry the given `y` coordinates; the palm base sits at `x = 0.5`. -/
def mkHand (ty iy my ry py pby : ℚ) : List Landmark :=
  [⟨0, 0⟩, ⟨0, 0⟩, ⟨0, 0⟩, ⟨0, 0⟩, ⟨0, ty⟩, ⟨0, 0⟩, ⟨0, 0⟩, ⟨0, 0⟩, ⟨0, iy⟩,
   ⟨0.5, pby⟩, ⟨0, 0⟩, ⟨0, 0⟩, ⟨0, my⟩, ⟨0, 0⟩, ⟨0, 0⟩, ⟨0, 0⟩, ⟨0, ry⟩,
   ⟨0, 0⟩, ⟨0, 0⟩, ⟨0, 0⟩, ⟨0, py⟩]

/-- Index tip well above the palm, every other tip 0.13 away from palm
height: a clean one-finger pose. -/
def oneFingerHand : List Landmark := mkHand 0.63 0.8 0.63 0.63 0.63 0.5

/-- Every tip 0.13 away from palm height: neither curled nor extended,
so no gesture at all. -/
def neutralHand : List Landmark := mkHand 0.63 0.63 0.63 0.63 0.63 0.5

/-- Every tip 0.05 away from palm height: all four fingers and the
thumb curled — a fist. -/
def fistHand : List Landmark := mkHand 0.55 0.55 0.55 0.55 0.55 0.5

/-- Index tip extended while middle, ring, pinky and thumb sit exactly
at palm height: one-finger **and** fist at the same time. -/
def oneFingerFistHand : List Landmark := mkHand 0.5 0.8 0.5 0.5 0.5 0.5

/-- Frame sequence realizing the one-finger condition signal
`[F, F, T, T, T, F, T]`. -/
def oneFingerSignalFrames : List (Option (List (List Landmark))) :=
  [some [neutralHand], some [neutralHand], some [oneFingerHand], some [oneFingerHand],
   some [oneFingerHand], some [neutralHand], some [oneFingerHand]]

/-! ## Claims -/

/-- Claim C9: the exploded-configuration generator is deterministic —
for every particle count `N`, two calls of
`calculateExplodedParticlePositions` with the same `N` (under any two
ambient random sources) produce element-wise identical output,
independent of any random source. -/
theorem C9_exploded_deterministic (r1 r2 : ℕ → ℝ) (n : ℕ) :
    calculateExplodedParticlePositions r1 n = calculateExplodedParticlePositions r2 n ∧
    ∀ i, (calculateExplodedParticlePositions r1 n).getD i 0
        = (calculateExplodedParticlePositions r2 n).getD i 0 :=
  ⟨rfl, fun _ => rfl⟩

/-- Claim C2 counterexample: a frame whose hand is present but carries
a single landmark (fewer than 21) makes the handler return early — no
callback at all is invoked, in particular not the no-gesture callback,
so "the dispatcher invokes the no-gesture callback for that frame" is
false for short landmark sets. -/
theorem C2_short_frame_counterexample :
    (processFrame initialLatches (some [[(⟨0, 0⟩ : Landmark)]])).2 = [] ∧
    GEvent.noGesture ∉ (processFrame initialLatches (some [[(⟨0, 0⟩ : Landmark)]])).2 := by
  have h : calculateFingerStates [(⟨0, 0⟩ : Landmark)] = none := by
    simp [calculateFingerStates]
  constructor <;> simp [processFrame, h]

/-- Claim C2 (amended): a frame with the landmark field absent or with
no hand detected invokes the no-gesture callback; a frame whose hand
has fewer than 21 landmarks invokes no callback at all (it is silently
dropped); in neither case is an error surfaced. -/
theorem C2_malformed_frames (st : LatchState) :
    processFrame st none = (st, [GEvent.noGesture]) ∧
    processFrame st (some []) = (st, [GEvent.noGesture]) ∧
    (∀ h hs, h.length < 21 → processFrame st (some (h :: hs)) = (st, [])) ∧
    (∀ frame msg, GEvent.error msg ∉ (processFrame st frame).2) := by
  refine ⟨rfl, by simp [processFrame], ?_, ?_⟩
  · intro h hs hlen
    exact processFrame_some_unclassified st h hs (by simp [calculateFingerStates, hlen])
  · intro frame msg
    match frame with
    | none => simp [processFrame]
    | some [] => simp [processFrame]
    | some (h :: hs) =>
      cases hc : calculateFingerStates h with
      | none => simp [processFrame_some_unclassified st h hs hc]
      | some fs =>
        rw [processFrame_some_classified st h hs fs hc]
        exact (dispatchGestures_spec st fs).2.2.2.2.2.2 msg

/-- Witness for C2: the amended behaviour at concrete frames — an
absent landmark set yields exactly the no-gesture callback, and a
one-landmark hand yields no callback. -/
theorem C2_malformed_frames_witness :
    processFrame initialLatches none = (initialLatches, [GEvent.noGesture]) ∧
    processFrame initialLatches (some [[(⟨0, 0⟩ : Landmark)]]) = (initialLatches, []) :=
  ⟨(C2_malformed_frames initialLatches).1,
    (C2_malformed_frames initialLatches).2.2.1 [⟨0, 0⟩] [] (by simp)⟩

/-- Claim C5: for each discrete gesture the one-shot callback fires
exactly on the false-to-true transitions of its condition — on any
frame it is invoked once if the condition holds with the latch clear
and zero times otherwise, and after any frame the latch equals the
condition (so it stays set while the condition holds and re-arms the
first frame the condition is false); on the concrete condition signal
`[F, F, T, T, T, F, T]` the one-finger callback fires exactly twice,
at indices 2 and 6. -/
theorem C5_edge_triggering (st : LatchState) (fs : FingerState) :
    (((dispatchGestures st fs).2).count GEvent.oneFinger
      = if fs.isOneFinger && !st.wasOne then 1 else 0) ∧
    (((dispatchGestures st fs).2).count GEvent.twoFingers
      = if fs.isTwoFingers && !st.wasTwo then 1 else 0) ∧
    (((dispatchGestures st fs).2).count GEvent.threeFingers
      = if fs.isThreeFingers && !st.wasThree then 1 else 0) ∧
    ((dispatchGestures st fs).1.wasOne = fs.isOneFinger ∧
      (dispatchGestures st fs).1.wasTwo = fs.isTwoFingers ∧
      (dispatchGestures st fs).1.wasThree = fs.isThreeFingers) ∧
    (runFrames initialLatches oneFingerSignalFrames).map
        (fun evs => evs.count GEvent.oneFinger) = [0, 0, 1, 0, 0, 0, 1] := by
  obtain ⟨hl, h1, h2, h3, -⟩ := dispatchGestures_spec st fs
  refine ⟨h1, h2, h3, ⟨by rw [hl], by rw [hl], by rw [hl]⟩, ?_⟩
  norm_num [runFrames, oneFingerSignalFrames, processFrame, dispatchGestures, initialLatches,
    calculateFingerStates, mkHand, oneFingerHand, neutralHand,
    GESTURE_THRESHOLDS.INDEX_CURLED,
    GESTURE_THRESHOLDS.MIDDLE_CURLED, GESTURE_THRESHOLDS.RING_CURLED,
    GESTURE_THRESHOLDS.PINKY_CURLED, GESTURE_THRESHOLDS.THUMB_CURLED,
    GESTURE_THRESHOLDS.INDEX_EXTENDED, GESTURE_THRESHOLDS.MIDDLE_EXTENDED,
    GESTURE_THRESHOLDS.RING_EXTENDED, GESTURE_THRESHOLDS.PINKY_EXTENDED,
    List.count_cons, List.count_nil, abs_of_nonneg, abs_of_nonpos]
  decide

/-- Claim C8: whenever the classifier reports `isFist = true`, the
dispatcher forwards exactly `fingersCurled / 4` (with the palm
coordinates) to the continuous fist callback, and that strength lies
in `[3/4, 1]` because the classifier counts 3 or 4 curled non-thumb
fingers. -/
theorem C8_fist_strength (st : LatchState) (lms : List Landmark) (fs : FingerState)
    (hc : calculateFingerStates lms = some fs) (hf : fs.isFist = true) :
    GEvent.fist ((fs.fingersCurled : ℚ) / 4) fs.palmBase.x fs.palmBase.y
      ∈ (dispatchGestures st fs).2 ∧
    3 ≤ fs.fingersCurled ∧ fs.fingersCurled ≤ 4 ∧
    (3 : ℚ) / 4 ≤ (fs.fingersCurled : ℚ) / 4 ∧ (fs.fingersCurled : ℚ) / 4 ≤ 1 := by
  have hmem := ((dispatchGestures_spec st fs).2.2.2.2.2.1
    ((fs.fingersCurled : ℚ) / 4) fs.palmBase.x fs.palmBase.y).mpr ⟨hf, rfl, rfl, rfl⟩
  have hbounds : 3 ≤ fs.fingersCurled ∧ fs.fingersCurled ≤ 4 := by
    rw [calculateFingerStates] at hc
    split at hc
    · exact absurd hc (by simp)
    · rw [Option.some.injEq] at hc
      subst hc
      constructor
      · have := hf
        simp only [Bool.and_eq_true, decide_eq_true_eq, ge_iff_le] at this
        exact this.1
      · exact le_trans (List.length_filter_le _ _) (by simp)
  have h3 : (3 : ℚ) ≤ (fs.fingersCurled : ℚ) := by exact_mod_cast hbounds.1
  have h4 : (fs.fingersCurled : ℚ) ≤ 4 := by exact_mod_cast hbounds.2
  exact ⟨hmem, hbounds.1, hbounds.2, by linarith, by linarith⟩

/-- Witness for C8 at a concrete fist frame: all four fingers curled,
strength `4/4 = 1 ∈ [3/4, 1]`. -/
theorem C8_fist_strength_witness :
    ∃ fs, calculateFingerStates fistHand = some fs ∧ fs.isFist = true ∧
      GEvent.fist ((fs.fingersCurled : ℚ) / 4) fs.palmBase.x fs.palmBase.y
        ∈ (dispatchGestures initialLatches fs).2 ∧
      (3 : ℚ) / 4 ≤ (fs.fingersCurled : ℚ) / 4 ∧ (fs.fingersCurled : ℚ) / 4 ≤ 1 := by
  have hc : calculateFingerStates fistHand =
      some { wrist := ⟨0, 0⟩, thumbTip := ⟨0, 0.55⟩, indexTip := ⟨0, 0.55⟩,
             middleTip := ⟨0, 0.55⟩, ringTip := ⟨0, 0.55⟩, pinkyTip := ⟨0, 0.55⟩,
             palmBase := ⟨0.5, 0.5⟩, fingersCurled := 4, fingersExtended := 0,
             isFist := true, isOneFinger := false, isTwoFingers := false,
             isThreeFingers := false } := by
    norm_num [calculateFingerStates, fistHand, mkHand,
      GESTURE_THRESHOLDS.INDEX_CURLED,
      GESTURE_THRESHOLDS.MIDDLE_CURLED, GESTURE_THRESHOLDS.RING_CURLED,
      GESTURE_THRESHOLDS.PINKY_CURLED, GESTURE_THRESHOLDS.THUMB_CURLED,
      GESTURE_THRESHOLDS.INDEX_EXTENDED, GESTURE_THRESHOLDS.MIDDLE_EXTENDED,
      GESTURE_THRESHOLDS.RING_EXTENDED, GESTURE_THRESHOLDS.PINKY_EXTENDED,
      abs_of_nonneg, abs_of_nonpos]
  obtain ⟨hmem, -, -, hlo, hhi⟩ := C8_fist_strength initialLatches fistHand _ hc rfl
  exact ⟨_, hc, rfl, hmem, hlo, hhi⟩

/-- Claim C10: a frame with no detected hand, or one whose landmark
set fails to classify, leaves all three edge-trigger latches exactly
as they were; consequently a gesture already latched before such an
interrupting frame does not fire its one-shot callback again on the
next classified frame on which its condition still holds. -/
theorem C10_interrupting_frames_keep_latches (st : LatchState) :
    (processFrame st none).1 = st ∧
    (processFrame st (some [])).1 = st ∧
    (∀ h hs, calculateFingerStates h = none → (processFrame st (some (h :: hs))).1 = st) ∧
    (∀ fInt, (fInt = none ∨ fInt = some ([] : List (List Landmark)) ∨
        ∃ h hs, fInt = some (h :: hs) ∧ calculateFingerStates h = none) →
      ∀ h2 hs2 fs2, calculateFingerStates h2 = some fs2 →
        (st.wasOne = true → fs2.isOneFinger = true →
          GEvent.oneFinger ∉ (processFrame (processFrame st fInt).1 (some (h2 :: hs2))).2) ∧
        (st.wasTwo = true → fs2.isTwoFingers = true →
          GEvent.twoFingers ∉ (processFrame (processFrame st fInt).1 (some (h2 :: hs2))).2) ∧
        (st.wasThree = true → fs2.isThreeFingers = true →
          GEvent.threeFingers ∉ (processFrame (processFrame st fInt).1 (some (h2 :: hs2))).2)) := by
  have hempty : (processFrame st (some ([] : List (List Landmark)))).1 = st := by
    simp [processFrame]
  refine ⟨rfl, hempty, ?_, ?_⟩
  · intro h hs hc
    rw [processFrame_some_unclassified st h hs hc]
  · rintro fInt hInt h2 hs2 fs2 hc2
    have hpre : (processFrame st fInt).1 = st := by
      rcases hInt with rfl | rfl | ⟨h, hs, rfl, hcn⟩
      · rfl
      · exact hempty
      · rw [processFrame_some_unclassified st h hs hcn]
    rw [hpre, processFrame_some_classified st h2 hs2 fs2 hc2]
    obtain ⟨-, c1, c2, c3, -⟩ := dispatchGestures_spec st fs2
    refine ⟨fun hw hg => ?_, fun hw hg => ?_, fun hw hg => ?_⟩
    · rw [hg, hw] at c1
      simp only [Bool.not_true, Bool.and_false, if_false] at c1
      exact List.count_eq_zero.mp c1
    · rw [hg, hw] at c2
      simp only [Bool.not_true, Bool.and_false, if_false] at c2
      exact List.count_eq_zero.mp c2
    · rw [hg, hw] at c3
      simp only [Bool.not_true, Bool.and_false, if_false] at c3
      exact List.count_eq_zero.mp c3

/-- Witness for C10: with the one-finger latch set, a no-hand frame
followed by a concrete one-finger frame fires nothing. -/
theorem C10_interrupting_frames_keep_latches_witness :
    ∃ fs, calculateFingerStates oneFingerHand = some fs ∧
      GEvent.oneFinger ∉
        (processFrame (processFrame ⟨true, false, false⟩ none).1 (some [oneFingerHand])).2 := by
  have hc : calculateFingerStates oneFingerHand =
      some { wrist := ⟨0, 0⟩, thumbTip := ⟨0, 0.63⟩, indexTip := ⟨0, 0.8⟩,
             middleTip := ⟨0, 0.63⟩, ringTip := ⟨0, 0.63⟩, pinkyTip := ⟨0, 0.63⟩,
             palmBase := ⟨0.5, 0.5⟩, fingersCurled := 0, fingersExtended := 1,
             isFist := false, isOneFinger := true, isTwoFingers := false,
             isThreeFingers := false } := by
    norm_num [calculateFingerStates, oneFingerHand, mkHand,
      GESTURE_THRESHOLDS.INDEX_CURLED,
      GESTURE_THRESHOLDS.MIDDLE_CURLED, GESTURE_THRESHOLDS.RING_CURLED,
      GESTURE_THRESHOLDS.PINKY_CURLED, GESTURE_THRESHOLDS.THUMB_CURLED,
      GESTURE_THRESHOLDS.INDEX_EXTENDED, GESTURE_THRESHOLDS.MIDDLE_EXTENDED,
      GESTURE_THRESHOLDS.RING_EXTENDED, GESTURE_THRESHOLDS.PINKY_EXTENDED,
      abs_of_nonneg, abs_of_nonpos]
  refine ⟨_, hc, ?_⟩
  exact (((C10_interrupting_frames_keep_latches ⟨true, false, false⟩).2.2.2
    none (Or.inl rfl) oneFingerHand [] _ hc).1 rfl rfl)

/-- Claim C6 counterexample: a hand whose index tip is far above the
palm while middle, ring and pinky sit exactly at palm height (below
their extension thresholds, as the claim requires) classifies with
`isOneFinger = true` but **also** `isFist = true` (the three lower
fingers and the thumb are within their curl thresholds), so "every
other gesture flag false" fails. -/
theorem C6_one_finger_fist_counterexample :
    ∃ fs, calculateFingerStates oneFingerFistHand = some fs ∧
      |(oneFingerFistHand.getD 8 ⟨0, 0⟩).y - (oneFingerFistHand.getD 9 ⟨0, 0⟩).y| >
        GESTURE_THRESHOLDS.INDEX_EXTENDED ∧
      |(oneFingerFistHand.getD 12 ⟨0, 0⟩).y - (oneFingerFistHand.getD 9 ⟨0, 0⟩).y| <
        GESTURE_THRESHOLDS.MIDDLE_EXTENDED ∧
      |(oneFingerFistHand.getD 16 ⟨0, 0⟩).y - (oneFingerFistHand.getD 9 ⟨0, 0⟩).y| <
        GESTURE_THRESHOLDS.RING_EXTENDED ∧
      |(oneFingerFistHand.getD 20 ⟨0, 0⟩).y - (oneFingerFistHand.getD 9 ⟨0, 0⟩).y| <
        GESTURE_THRESHOLDS.PINKY_EXTENDED ∧
      fs.isOneFinger = true ∧ fs.isFist = true := by
  have hc : calculateFingerStates oneFingerFistHand =
      some { wrist := ⟨0, 0⟩, thumbTip := ⟨0, 0.5⟩, indexTip := ⟨0, 0.8⟩,
             middleTip := ⟨0, 0.5⟩, ringTip := ⟨0, 0.5⟩, pinkyTip := ⟨0, 0.5⟩,
             palmBase := ⟨0.5, 0.5⟩, fingersCurled := 3, fingersExtended := 1,
             isFist := true, isOneFinger := true, isTwoFingers := false,
             isThreeFingers := false } := by
    norm_num [calculateFingerStates, oneFingerFistHand, mkHand,
      GESTURE_THRESHOLDS.INDEX_CURLED,
      GESTURE_THRESHOLDS.MIDDLE_CURLED, GESTURE_THRESHOLDS.RING_CURLED,
      GESTURE_THRESHOLDS.PINKY_CURLED, GESTURE_THRESHOLDS.THUMB_CURLED,
      GESTURE_THRESHOLDS.INDEX_EXTENDED, GESTURE_THRESHOLDS.MIDDLE_EXTENDED,
      GESTURE_THRESHOLDS.RING_EXTENDED, GESTURE_THRESHOLDS.PINKY_EXTENDED,
      abs_of_nonneg, abs_of_nonpos]
  refine ⟨_, hc, ?_, ?_, ?_, ?_, rfl, rfl⟩ <;>
    norm_num [oneFingerFistHand, mkHand,
      GESTURE_THRESHOLDS.INDEX_EXTENDED, GESTURE_THRESHOLDS.MIDDLE_EXTENDED,
      GESTURE_THRESHOLDS.RING_EXTENDED, GESTURE_THRESHOLDS.PINKY_EXTENDED,
      abs_of_nonneg, abs_of_nonpos]

/-- Claim C6 (amended): for every 21-landmark set with the index tip
beyond the extension threshold and middle, ring and pinky tips below
their extension thresholds, the classifier yields `isOneFinger = true`
and `isTwoFingers = isThreeFingers = false`; `isFist` is false as well
**provided** the frame is not simultaneously a fist (that is, not all
of middle, ring and pinky are within their curl thresholds with the
thumb also curled). -/
theorem C6_one_finger_classification (lms : List Landmark) (h21 : 21 ≤ lms.length)
    (hidx : |(lms.getD 8 ⟨0, 0⟩).y - (lms.getD 9 ⟨0, 0⟩).y| > GESTURE_THRESHOLDS.INDEX_EXTENDED)
    (hmid : |(lms.getD 12 ⟨0, 0⟩).y - (lms.getD 9 ⟨0, 0⟩).y| < GESTURE_THRESHOLDS.MIDDLE_EXTENDED)
    (hring : |(lms.getD 16 ⟨0, 0⟩).y - (lms.getD 9 ⟨0, 0⟩).y| < GESTURE_THRESHOLDS.RING_EXTENDED)
    (hpinky : |(lms.getD 20 ⟨0, 0⟩).y - (lms.getD 9 ⟨0, 0⟩).y| < GESTURE_THRESHOLDS.PINKY_EXTENDED)
    (hnofist :
      ¬(|(lms.getD 12 ⟨0, 0⟩).y - (lms.getD 9 ⟨0, 0⟩).y| < GESTURE_THRESHOLDS.MIDDLE_CURLED ∧
        |(lms.getD 16 ⟨0, 0⟩).y - (lms.getD 9 ⟨0, 0⟩).y| < GESTURE_THRESHOLDS.RING_CURLED ∧
        |(lms.getD 20 ⟨0, 0⟩).y - (lms.getD 9 ⟨0, 0⟩).y| < GESTURE_THRESHOLDS.PINKY_CURLED ∧
        |(lms.getD 4 ⟨0, 0⟩).y - (lms.getD 9 ⟨0, 0⟩).y| < GESTURE_THRESHOLDS.THUMB_CURLED)) :
    ∃ fs, calculateFingerStates lms = some fs ∧ fs.isOneFinger = true ∧
      fs.isTwoFingers = false ∧ fs.isThreeFingers = false ∧ fs.isFist = false := by
  have hmE : decide (GESTURE_THRESHOLDS.MIDDLE_EXTENDED <
      |(lms.getD 12 ⟨0, 0⟩).y - (lms.getD 9 ⟨0, 0⟩).y|) = false :=
    decide_eq_false (not_lt.mpr (le_of_lt hmid))
  have hrE : decide (GESTURE_THRESHOLDS.RING_EXTENDED <
      |(lms.getD 16 ⟨0, 0⟩).y - (lms.getD 9 ⟨0, 0⟩).y|) = false :=
    decide_eq_false (not_lt.mpr (le_of_lt hring))
  have hpE : decide (GESTURE_THRESHOLDS.PINKY_EXTENDED <
      |(lms.getD 20 ⟨0, 0⟩).y - (lms.getD 9 ⟨0, 0⟩).y|) = false :=
    decide_eq_false (not_lt.mpr (le_of_lt hpinky))
  have hiCp : ¬(|(lms.getD 8 ⟨0, 0⟩).y - (lms.getD 9 ⟨0, 0⟩).y| <
      GESTURE_THRESHOLDS.INDEX_CURLED) := by
    rw [not_lt]
    have h1 : GESTURE_THRESHOLDS.INDEX_CURLED ≤ GESTURE_THRESHOLDS.INDEX_EXTENDED := by
      norm_num [GESTURE_THRESHOLDS.INDEX_CURLED, GESTURE_THRESHOLDS.INDEX_EXTENDED]
    exact le_trans h1 (le_of_lt hidx)
  unfold calculateFingerStates
  rw [if_neg (by omega)]
  refine ⟨_, rfl, ?_, ?_, ?_, ?_⟩
  · simp only [hmE, hrE, hpE, Bool.not_false, Bool.and_true, Bool.and_eq_true,
      decide_eq_true_eq]
    exact hidx
  · simp only [hmE, Bool.and_false, Bool.false_and]
  · simp only [hmE, Bool.and_false, Bool.false_and]
  · by_cases hm : |(lms.getD 12 ⟨0, 0⟩).y - (lms.getD 9 ⟨0, 0⟩).y| <
        GESTURE_THRESHOLDS.MIDDLE_CURLED <;>
      by_cases hr : |(lms.getD 16 ⟨0, 0⟩).y - (lms.getD 9 ⟨0, 0⟩).y| <
        GESTURE_THRESHOLDS.RING_CURLED <;>
      by_cases hp2 : |(lms.getD 20 ⟨0, 0⟩).y - (lms.getD 9 ⟨0, 0⟩).y| <
        GESTURE_THRESHOLDS.PINKY_CURLED <;>
      by_cases ht : |(lms.getD 4 ⟨0, 0⟩).y - (lms.getD 9 ⟨0, 0⟩).y| <
        GESTURE_THRESHOLDS.THUMB_CURLED
    · exact absurd ⟨hm, hr, hp2, ht⟩ hnofist
    all_goals
      simp only [List.getD_eq_getElem?_getD] at hm hr hp2 ht hiCp
    all_goals
      simp [hiCp, hm, hr, hp2, ht]

/-- Witness for C6 at the concrete clean one-finger hand. -/
theorem C6_one_finger_classification_witness :
    ∃ fs, calculateFingerStates oneFingerHand = some fs ∧ fs.isOneFinger = true ∧
      fs.isTwoFingers = false ∧ fs.isThreeFingers = false ∧ fs.isFist = false := by
  refine C6_one_finger_classification oneFingerHand (by norm_num [oneFingerHand, mkHand])
    ?_ ?_ ?_ ?_ ?_ <;>
    norm_num [oneFingerHand, mkHand, GESTURE_THRESHOLDS.INDEX_EXTENDED,
      GESTURE_THRESHOLDS.MIDDLE_EXTENDED, GESTURE_THRESHOLDS.RING_EXTENDED,
      GESTURE_THRESHOLDS.PINKY_EXTENDED, GESTURE_THRESHOLDS.MIDDLE_CURLED,
      GESTURE_THRESHOLDS.RING_CURLED, GESTURE_THRESHOLDS.PINKY_CURLED,
      GESTURE_THRESHOLDS.THUMB_CURLED, abs_of_nonneg, abs_of_nonpos]

/-! ## Firework lifecycle facts -/

theorem stepFirework_alive (fw : Firework) (ha : fw.active = true)
    (h : ¬(fw.age + 0.016 > fw.lifetime)) :
    (stepFirework fw).active = true ∧ (stepFirework fw).released = fw.released ∧
    (stepFirework fw).age = fw.age + 0.016 ∧ (stepFirework fw).lifetime = fw.lifetime := by
  simp [stepFirework, ha, h]

theorem stepFirework_expires (fw : Firework) (ha : fw.active = true)
    (h : fw.age + 0.016 > fw.lifetime) :
    (stepFirework fw).active = false ∧ (stepFirework fw).released = true ∧
    (stepFirework fw).age = fw.age + 0.016 := by
  simp [stepFirework, ha, h]

/-- Every burst still in the live set after an `updateFireworks` tick
is active: the same tick that deactivates a burst also filters it out. -/
theorem updateFireworks_mem_active (l : List Firework) (fw : Firework)
    (h : fw ∈ updateFireworks l) : fw.active = true := by
  rw [updateFireworks, List.mem_filter] at h
  simpa using h.2

/-- What `updateFireworks` does to a burst that sits in the live set
from its spawn on: it stays active with age `0.016 n` through tick
187, and on tick 188 — the first tick on which its age exceeds
`lifetime = 3.0` — it is deactivated, released and pruned, so the live
set no longer contains it from that very tick (in particular on the
following tick). -/
theorem spawned_burst_lifecycle (i : ℕ) (ps vs cs : List Vec3q) :
    (∀ n, n ≤ 187 → ∃ g, iterFireworks n [mkLayerBurst i ps vs cs] = [g] ∧
      g.active = true ∧ g.released = false ∧ g.age = 0.016 * n ∧ g.lifetime = 3) ∧
    iterFireworks 188 [mkLayerBurst i ps vs cs] = [] := by
  have main : ∀ n, n ≤ 187 → ∃ g, iterFireworks n [mkLayerBurst i ps vs cs] = [g] ∧
      g.active = true ∧ g.released = false ∧ g.age = 0.016 * n ∧ g.lifetime = 3 := by
    intro n
    induction n with
    | zero =>
      intro _
      refine ⟨mkLayerBurst i ps vs cs, rfl, rfl, rfl, by norm_num [mkLayerBurst], ?_⟩
      norm_num [mkLayerBurst, FIREWORKS_CONFIG.LIFETIME]
    | succ n ih =>
      intro hn
      obtain ⟨g, hg, hact, hrel, hage, hlt⟩ := ih (by omega)
      have hnogt : ¬(g.age + 0.016 > g.lifetime) := by
        rw [hage, hlt, not_lt]
        have hc : (n : ℚ) ≤ 186 := by exact_mod_cast Nat.le_of_succ_le_succ hn
        nlinarith
      obtain ⟨ha2, hr2, hage2, hlt2⟩ := stepFirework_alive g hact hnogt
      refine ⟨stepFirework g, ?_, ha2, by rw [hr2, hrel], ?_, by rw [hlt2, hlt]⟩
      · show updateFireworks (iterFireworks n [mkLayerBurst i ps vs cs]) = [stepFirework g]
        rw [hg, updateFireworks]
        simp [ha2]
      · rw [hage2, hage]
        push_cast
        ring
  refine ⟨main, ?_⟩
  obtain ⟨g, hg, hact, hrel, hage, hlt⟩ := main 187 le_rfl
  have hgt : g.age + 0.016 > g.lifetime := by
    rw [hage, hlt]
    norm_num
  obtain ⟨ha2, -, -⟩ := stepFirework_expires g hact hgt
  show updateFireworks (iterFireworks 187 [mkLayerBurst i ps vs cs]) = []
  rw [hg, updateFireworks]
  simp [ha2]

/-- Claim C1 (evaluation of the code at the failing input): the bursts
spawned by a three-finger trigger never reach the live firework set.
`createFireworkParticles` schedules its three layer bursts through
`setTimeout` callbacks that push into the function's local array only
after the function has already returned, while
`ThreeScene.createFireworks` spreads the still-empty returned array
into `this.fireworks` immediately.  So (1) `createFireworks` adds
nothing to the live set, (2) three bursts are nevertheless scheduled,
each spawned with `age = 0`, `lifetime = 3.0`, `active = true` and
resources unreleased, and (3) the live set stays empty on every
subsequent animation tick — no spawned burst is ever aged,
deactivated, released, or pruned, contradicting the claimed
lifecycle. -/
theorem C1_spawned_bursts_never_live
    (sampled : ℕ → List Vec3q × List Vec3q × List Vec3q) (fws : List Firework) (n : ℕ) :
    threeSceneCreateFireworks fws sampled = fws ∧
    (createFireworkParticles sampled).2.map
        (fun p => (p.1, p.2.age, p.2.lifetime, p.2.active, p.2.released)) =
      [(0, 0, 3, true, false), (0.1, 0, 3, true, false), (0.2, 0, 3, true, false)] ∧
    iterFireworks n (threeSceneCreateFireworks [] sampled) = [] := by
  refine ⟨by simp [threeSceneCreateFireworks, createFireworkParticles], ?_, ?_⟩
  · show (createFireworkParticles sampled).2.map
        (fun p => (p.1, p.2.age, p.2.lifetime, p.2.active, p.2.released)) = _
    norm_num [createFireworkParticles, fireworkLayers, mkLayerBurst, List.enum,
      FIREWORKS_CONFIG.LIFETIME]
  · induction n with
    | zero => simp [iterFireworks, threeSceneCreateFireworks, createFireworkParticles]
    | succ n ih => simp [iterFireworks, ih, updateFireworks]

/-! ## Physics integrator facts -/

theorem vlength_force (F : ℝ) (d : Vec3) (hF : 0 ≤ F) (hd : vlength d > 0.01) :
    vlength ((F / vlength d) • d) = F := by
  rw [vlength_smul, abs_of_nonneg (div_nonneg hF (vlength_nonneg d))]
  exact div_mul_cancel₀ F (ne_of_gt (lt_trans (by norm_num) hd))

theorem velAfterForces_pinch_far (pinch : ℝ) (tree expl : Vec3) (r1 r2 r3 : ℝ)
    (s : Vec3 × Vec3) (hp : pinch > 0.01) (hd : vlength (tree - s.1) > 0.01) :
    velAfterForces pinch tree expl r1 r2 r3 s
      = s.2 + ((ANIMATION_CONFIG.GRAVITY_STRENGTH * pinch) / vlength (tree - s.1))
          • (tree - s.1) := by
  rw [velAfterForces, if_pos hp, if_pos hd]

theorem velAfterForces_pinch_near (pinch : ℝ) (tree expl : Vec3) (r1 r2 r3 : ℝ)
    (s : Vec3 × Vec3) (hp : pinch > 0.01) (hd : ¬(vlength (tree - s.1) > 0.01)) :
    velAfterForces pinch tree expl r1 r2 r3 s = s.2 := by
  rw [velAfterForces, if_pos hp, if_neg hd]

theorem velAfterForces_explode_far (pinch : ℝ) (tree expl : Vec3) (r1 r2 r3 : ℝ)
    (s : Vec3 × Vec3) (hp : ¬(pinch > 0.01)) (hd : vlength (expl - s.1) > 0.01) :
    velAfterForces pinch tree expl r1 r2 r3 s
      = s.2 + (ANIMATION_CONFIG.EXPLOSION_STRENGTH / vlength (expl - s.1)) • (expl - s.1)
        + ⟨(r1 - 0.5) * ANIMATION_CONFIG.BROWN_MOTION,
           (r2 - 0.5) * ANIMATION_CONFIG.BROWN_MOTION,
           (r3 - 0.5) * ANIMATION_CONFIG.BROWN_MOTION⟩ := by
  simp only [velAfterForces]
  rw [if_neg hp, if_pos hd]

theorem velAfterForces_explode_near (pinch : ℝ) (tree expl : Vec3) (r1 r2 r3 : ℝ)
    (s : Vec3 × Vec3) (hp : ¬(pinch > 0.01)) (hd : ¬(vlength (expl - s.1) > 0.01)) :
    velAfterForces pinch tree expl r1 r2 r3 s
      = s.2 + ⟨(r1 - 0.5) * ANIMATION_CONFIG.BROWN_MOTION,
               (r2 - 0.5) * ANIMATION_CONFIG.BROWN_MOTION,
               (r3 - 0.5) * ANIMATION_CONFIG.BROWN_MOTION⟩ := by
  simp only [velAfterForces]
  rw [if_neg hp, if_neg hd]

theorem updateParticle_vel (pinch : ℝ) (tree expl : Vec3) (r1 r2 r3 : ℝ) (s : Vec3 × Vec3) :
    (updateParticle pinch tree expl r1 r2 r3 s).2
      = ANIMATION_CONFIG.DAMPING • velAfterForces pinch tree expl r1 r2 r3 s := rfl

theorem updateParticle_pos (pinch : ℝ) (tree expl : Vec3) (r1 r2 r3 : ℝ) (s : Vec3 × Vec3) :
    (updateParticle pinch tree expl r1 r2 r3 s).1
      = s.1 + ANIMATION_CONFIG.DAMPING • velAfterForces pinch tree expl r1 r2 r3 s := rfl

/-- The Brownian jitter vector has length at most `0.03` when the
three `Math.random()` draws are in `[0, 1]`. -/
theorem jitter_norm_le (r1 r2 r3 : ℝ) (h1 : 0 ≤ r1 ∧ r1 ≤ 1) (h2 : 0 ≤ r2 ∧ r2 ≤ 1)
    (h3 : 0 ≤ r3 ∧ r3 ≤ 1) :
    vlength ⟨(r1 - 0.5) * ANIMATION_CONFIG.BROWN_MOTION,
             (r2 - 0.5) * ANIMATION_CONFIG.BROWN_MOTION,
             (r3 - 0.5) * ANIMATION_CONFIG.BROWN_MOTION⟩ ≤ 0.03 := by
  have hb : ∀ r : ℝ, 0 ≤ r → r ≤ 1 → |(r - 0.5) * ANIMATION_CONFIG.BROWN_MOTION| ≤ 0.015 := by
    intro r hr0 hr1
    rw [abs_mul, abs_of_nonneg (by norm_num [ANIMATION_CONFIG.BROWN_MOTION] :
      (0 : ℝ) ≤ ANIMATION_CONFIG.BROWN_MOTION)]
    have : |r - 0.5| ≤ 0.5 := abs_le.mpr ⟨by linarith, by linarith⟩
    calc |r - 0.5| * ANIMATION_CONFIG.BROWN_MOTION
        ≤ 0.5 * ANIMATION_CONFIG.BROWN_MOTION := by
          apply mul_le_mul_of_nonneg_right this
          norm_num [ANIMATION_CONFIG.BROWN_MOTION]
      _ = 0.015 := by norm_num [ANIMATION_CONFIG.BROWN_MOTION]
  have := vlength_le_of_abs_le (v := ⟨(r1 - 0.5) * ANIMATION_CONFIG.BROWN_MOTION,
      (r2 - 0.5) * ANIMATION_CONFIG.BROWN_MOTION,
      (r3 - 0.5) * ANIMATION_CONFIG.BROWN_MOTION⟩) (c := 0.015)
    (hb r1 h1.1 h1.2) (hb r2 h2.1 h2.2) (hb r3 h3.1 h3.2)
  linarith

/-- One tick with the actual (bounded) forces grows the pre-damping
speed by at most `0.35 + 0.03`. -/
theorem velAfterForces_norm_le (pinch : ℝ) (tree expl : Vec3) (r1 r2 r3 : ℝ)
    (s : Vec3 × Vec3) (hp : 0 ≤ pinch ∧ pinch ≤ 1) (h1 : 0 ≤ r1 ∧ r1 ≤ 1)
    (h2 : 0 ≤ r2 ∧ r2 ≤ 1) (h3 : 0 ≤ r3 ∧ r3 ≤ 1) :
    vlength (velAfterForces pinch tree expl r1 r2 r3 s) ≤ vlength s.2 + 0.38 := by
  have hvnn := vlength_nonneg s.2
  by_cases hpb : pinch > 0.01
  · by_cases hd : vlength (tree - s.1) > 0.01
    · rw [velAfterForces_pinch_far pinch tree expl r1 r2 r3 s hpb hd]
      have hF : (0 : ℝ) ≤ ANIMATION_CONFIG.GRAVITY_STRENGTH * pinch := by
        have : (0 : ℝ) ≤ pinch := hp.1
        norm_num [ANIMATION_CONFIG.GRAVITY_STRENGTH]
        nlinarith
      have hFle : ANIMATION_CONFIG.GRAVITY_STRENGTH * pinch ≤ 0.35 := by
        norm_num [ANIMATION_CONFIG.GRAVITY_STRENGTH]
        nlinarith [hp.2, hp.1]
      calc vlength (s.2 + ((ANIMATION_CONFIG.GRAVITY_STRENGTH * pinch) /
              vlength (tree - s.1)) • (tree - s.1))
          ≤ vlength s.2 + vlength (((ANIMATION_CONFIG.GRAVITY_STRENGTH * pinch) /
              vlength (tree - s.1)) • (tree - s.1)) := vlength_add_le _ _
        _ = vlength s.2 + ANIMATION_CONFIG.GRAVITY_STRENGTH * pinch := by
            rw [vlength_force _ _ hF hd]
        _ ≤ vlength s.2 + 0.38 := by linarith
    · rw [velAfterForces_pinch_near pinch tree expl r1 r2 r3 s hpb hd]
      linarith
  · have hj := jitter_norm_le r1 r2 r3 h1 h2 h3
    by_cases hd : vlength (expl - s.1) > 0.01
    · rw [velAfterForces_explode_far pinch tree expl r1 r2 r3 s hpb hd]
      have hF : (0 : ℝ) ≤ ANIMATION_CONFIG.EXPLOSION_STRENGTH := by
        norm_num [ANIMATION_CONFIG.EXPLOSION_STRENGTH]
      have hfn : vlength ((ANIMATION_CONFIG.EXPLOSION_STRENGTH /
          vlength (expl - s.1)) • (expl - s.1)) = ANIMATION_CONFIG.EXPLOSION_STRENGTH :=
        vlength_force _ _ hF hd
      have t1 := vlength_add_le
        (s.2 + (ANIMATION_CONFIG.EXPLOSION_STRENGTH / vlength (expl - s.1)) • (expl - s.1))
        ⟨(r1 - 0.5) * ANIMATION_CONFIG.BROWN_MOTION,
         (r2 - 0.5) * ANIMATION_CONFIG.BROWN_MOTION,
         (r3 - 0.5) * ANIMATION_CONFIG.BROWN_MOTION⟩
      have t2 := vlength_add_le s.2
        ((ANIMATION_CONFIG.EXPLOSION_STRENGTH / vlength (expl - s.1)) • (expl - s.1))
      have hE : ANIMATION_CONFIG.EXPLOSION_STRENGTH ≤ 0.35 := by
        norm_num [ANIMATION_CONFIG.EXPLOSION_STRENGTH]
      rw [hfn] at t2
      linarith
    · rw [velAfterForces_explode_near pinch tree expl r1 r2 r3 s hpb hd]
      have t1 := vlength_add_le s.2
        ⟨(r1 - 0.5) * ANIMATION_CONFIG.BROWN_MOTION,
         (r2 - 0.5) * ANIMATION_CONFIG.BROWN_MOTION,
         (r3 - 0.5) * ANIMATION_CONFIG.BROWN_MOTION⟩
      linarith

/-- Damping multiplies the speed by exactly `0.9`. -/
theorem vlength_damped (v : Vec3) :
    vlength (ANIMATION_CONFIG.DAMPING • v) = 0.9 * vlength v := by
  rw [vlength_smul]
  norm_num [ANIMATION_CONFIG.DAMPING]

theorem Vec3.smul_smul (a b : ℝ) (v : Vec3) : a • (b • v) = (a * b) • v := by
  simp [Vec3.smul_def, mul_assoc]

/-- Claim C4: on every tick and for every particle, the active target
is the tree slot when `pinchStrength > 0.01` and the exploded slot
otherwise; whenever the distance to that target exceeds 0.01 the
pre-damping velocity is incremented by the displacement scaled by
`forceMagnitude / dist` — equal to `normalize(d) * forceMagnitude`, an
increment of constant magnitude `forceMagnitude` — where
`forceMagnitude` is `gravityStrength * pinchStrength` when pinching
and the fixed `explosionStrength` otherwise (the non-pinching branch
additionally adds the Brownian jitter, and damping follows afterwards). -/
theorem C4_target_selection_and_force (pinch : ℝ) (tree expl : Vec3) (r1 r2 r3 : ℝ)
    (s : Vec3 × Vec3) :
    (pinch > 0.01 → vlength (tree - s.1) > 0.01 →
      velAfterForces pinch tree expl r1 r2 r3 s
        = s.2 + ((ANIMATION_CONFIG.GRAVITY_STRENGTH * pinch) / vlength (tree - s.1))
            • (tree - s.1) ∧
      ((ANIMATION_CONFIG.GRAVITY_STRENGTH * pinch) / vlength (tree - s.1)) • (tree - s.1)
        = (ANIMATION_CONFIG.GRAVITY_STRENGTH * pinch) • vnormalize (tree - s.1) ∧
      vlength (((ANIMATION_CONFIG.GRAVITY_STRENGTH * pinch) / vlength (tree - s.1))
          • (tree - s.1)) = ANIMATION_CONFIG.GRAVITY_STRENGTH * pinch) ∧
    (¬(pinch > 0.01) → vlength (expl - s.1) > 0.01 →
      velAfterForces pinch tree expl r1 r2 r3 s
        = s.2 + (ANIMATION_CONFIG.EXPLOSION_STRENGTH / vlength (expl - s.1)) • (expl - s.1)
          + ⟨(r1 - 0.5) * ANIMATION_CONFIG.BROWN_MOTION,
             (r2 - 0.5) * ANIMATION_CONFIG.BROWN_MOTION,
             (r3 - 0.5) * ANIMATION_CONFIG.BROWN_MOTION⟩ ∧
      (ANIMATION_CONFIG.EXPLOSION_STRENGTH / vlength (expl - s.1)) • (expl - s.1)
        = ANIMATION_CONFIG.EXPLOSION_STRENGTH • vnormalize (expl - s.1) ∧
      vlength ((ANIMATION_CONFIG.EXPLOSION_STRENGTH / vlength (expl - s.1)) • (expl - s.1))
        = ANIMATION_CONFIG.EXPLOSION_STRENGTH) ∧
    (updateParticle pinch tree expl r1 r2 r3 s).2
      = ANIMATION_CONFIG.DAMPING • velAfterForces pinch tree expl r1 r2 r3 s := by
  refine ⟨fun hp hd => ⟨velAfterForces_pinch_far pinch tree expl r1 r2 r3 s hp hd, ?_, ?_⟩,
    fun hp hd => ⟨velAfterForces_explode_far pinch tree expl r1 r2 r3 s hp hd, ?_, ?_⟩, rfl⟩
  · rw [vnormalize, Vec3.smul_smul, ← div_eq_mul_inv]
  · have hF : (0 : ℝ) ≤ ANIMATION_CONFIG.GRAVITY_STRENGTH * pinch := by
      have h1 : (0 : ℝ) < pinch := lt_trans (by norm_num) hp
      norm_num [ANIMATION_CONFIG.GRAVITY_STRENGTH]
      nlinarith
    exact vlength_force _ _ hF hd
  · rw [vnormalize, Vec3.smul_smul, ← div_eq_mul_inv]
  · have hF : (0 : ℝ) ≤ ANIMATION_CONFIG.EXPLOSION_STRENGTH := by
      norm_num [ANIMATION_CONFIG.EXPLOSION_STRENGTH]
    exact vlength_force _ _ hF hd

/-- Witness for C4 at a concrete particle 10 units from both targets:
the force increment has magnitude exactly `gravityStrength * 1` while
pinching and exactly `explosionStrength` otherwise. -/
theorem C4_target_selection_and_force_witness :
    vlength (((ANIMATION_CONFIG.GRAVITY_STRENGTH * 1) /
        vlength ((⟨10, 0, 0⟩ : Vec3) - ((⟨0, 0, 0⟩ : Vec3), (⟨0, 0, 0⟩ : Vec3)).1))
          • ((⟨10, 0, 0⟩ : Vec3) - ((⟨0, 0, 0⟩ : Vec3), (⟨0, 0, 0⟩ : Vec3)).1))
      = ANIMATION_CONFIG.GRAVITY_STRENGTH * 1 ∧
    vlength ((ANIMATION_CONFIG.EXPLOSION_STRENGTH /
        vlength ((⟨10, 0, 0⟩ : Vec3) - ((⟨0, 0, 0⟩ : Vec3), (⟨0, 0, 0⟩ : Vec3)).1))
          • ((⟨10, 0, 0⟩ : Vec3) - ((⟨0, 0, 0⟩ : Vec3), (⟨0, 0, 0⟩ : Vec3)).1))
      = ANIMATION_CONFIG.EXPLOSION_STRENGTH := by
  have hsub : (⟨10, 0, 0⟩ : Vec3) - ((⟨0, 0, 0⟩ : Vec3), (⟨0, 0, 0⟩ : Vec3)).1
      = ⟨10, 0, 0⟩ := by
    rw [Vec3.sub_def]
    simp
  have hd : vlength ((⟨10, 0, 0⟩ : Vec3) - ((⟨0, 0, 0⟩ : Vec3), (⟨0, 0, 0⟩ : Vec3)).1)
      > 0.01 := by
    rw [hsub]
    simp only [vlength]
    rw [show (10 : ℝ) ^ 2 + 0 ^ 2 + 0 ^ 2 = 10 ^ 2 by norm_num,
      Real.sqrt_sq (by norm_num : (0 : ℝ) ≤ 10)]
    norm_num
  exact ⟨((C4_target_selection_and_force 1 ⟨10, 0, 0⟩ ⟨10, 0, 0⟩ 0 0 0
      (⟨0, 0, 0⟩, ⟨0, 0, 0⟩)).1 (by norm_num) hd).2.2,
    ((C4_target_selection_and_force 0 ⟨10, 0, 0⟩ ⟨10, 0, 0⟩ 0 0 0
      (⟨0, 0, 0⟩, ⟨0, 0, 0⟩)).2.1 (by norm_num) hd).2.2⟩

/-- Claim C7: every velocity component is multiplied by the damping
factor `0.90 < 1` unconditionally after force application; under the
integrator's (bounded) per-tick forces the speed stays bounded for all
ticks by `max (initial speed) 3.42`; and with no force input (pinching
with the particle inside the 0.01 dead zone) the speed after damping
is exactly `0.9` times — hence never more than — the previous speed. -/
theorem C7_damping_and_bounded_speed (pin r1 r2 r3 : ℕ → ℝ) (tree expl : Vec3)
    (s : Vec3 × Vec3)
    (hp : ∀ n, 0 ≤ pin n ∧ pin n ≤ 1) (h1 : ∀ n, 0 ≤ r1 n ∧ r1 n ≤ 1)
    (h2 : ∀ n, 0 ≤ r2 n ∧ r2 n ≤ 1) (h3 : ∀ n, 0 ≤ r3 n ∧ r3 n ≤ 1) :
    ANIMATION_CONFIG.DAMPING = 0.90 ∧ ANIMATION_CONFIG.DAMPING < 1 ∧
    (∀ p (t e : Vec3) a b c (q : Vec3 × Vec3),
      (updateParticle p t e a b c q).2.x
        = ANIMATION_CONFIG.DAMPING * (velAfterForces p t e a b c q).x ∧
      (updateParticle p t e a b c q).2.y
        = ANIMATION_CONFIG.DAMPING * (velAfterForces p t e a b c q).y ∧
      (updateParticle p t e a b c q).2.z
        = ANIMATION_CONFIG.DAMPING * (velAfterForces p t e a b c q).z) ∧
    (∀ n, vlength (iterParticle pin r1 r2 r3 tree expl n s).2 ≤ max (vlength s.2) 3.42) ∧
    (∀ p (t e : Vec3) a b c (q : Vec3 × Vec3), p > 0.01 → ¬(vlength (t - q.1) > 0.01) →
      vlength (updateParticle p t e a b c q).2 = 0.9 * vlength q.2 ∧
      vlength (updateParticle p t e a b c q).2 ≤ vlength q.2) := by
  refine ⟨by norm_num [ANIMATION_CONFIG.DAMPING],
    by norm_num [ANIMATION_CONFIG.DAMPING],
    fun p t e a b c q => ⟨rfl, rfl, rfl⟩, ?_, ?_⟩
  · intro n
    induction n with
    | zero => exact le_max_left _ _
    | succ n ih =>
      have hb := velAfterForces_norm_le (pin n) tree expl (r1 n) (r2 n) (r3 n)
        (iterParticle pin r1 r2 r3 tree expl n s) (hp n) (h1 n) (h2 n) (h3 n)
      have hM := le_max_right (vlength s.2) (3.42 : ℝ)
      show vlength (updateParticle (pin n) tree expl (r1 n) (r2 n) (r3 n)
        (iterParticle pin r1 r2 r3 tree expl n s)).2 ≤ _
      rw [updateParticle_vel, vlength_damped]
      linarith
  · intro p t e a b c q hpp hd
    rw [updateParticle_vel, velAfterForces_pinch_near p t e a b c q hpp hd, vlength_damped]
    exact ⟨rfl, by linarith [vlength_nonneg q.2]⟩

/-- Witness for C7: five ticks from rest under constant full pinch
keep the speed within the bound. -/
theorem C7_damping_and_bounded_speed_witness :
    vlength (iterParticle (fun _ => 1) (fun _ => 0) (fun _ => 0) (fun _ => 0)
        ⟨0, 0, 0⟩ ⟨0, 0, 0⟩ 5 ((⟨5, 0, 0⟩ : Vec3), (⟨0, 0, 0⟩ : Vec3))).2
      ≤ max (vlength ((⟨5, 0, 0⟩ : Vec3), (⟨0, 0, 0⟩ : Vec3)).2) 3.42 :=
  (C7_damping_and_bounded_speed (fun _ => 1) (fun _ => 0) (fun _ => 0) (fun _ => 0)
    ⟨0, 0, 0⟩ ⟨0, 0, 0⟩ (⟨5, 0, 0⟩, ⟨0, 0, 0⟩)
    (fun _ => by norm_num) (fun _ => by norm_num) (fun _ => by norm_num)
    (fun _ => by norm_num)).2.2.2.1 5

theorem velAfterForces_pinch_norm_le (pinch : ℝ) (tree expl : Vec3) (r1 r2 r3 : ℝ)
    (s : Vec3 × Vec3) (hp01 : pinch > 0.01) (hple : pinch ≤ 1) :
    vlength (velAfterForces pinch tree expl r1 r2 r3 s) ≤ vlength s.2 + 0.35 := by
  by_cases hd : vlength (tree - s.1) > 0.01
  · rw [velAfterForces_pinch_far pinch tree expl r1 r2 r3 s hp01 hd]
    have hF : (0 : ℝ) ≤ ANIMATION_CONFIG.GRAVITY_STRENGTH * pinch := by
      have h1 : (0 : ℝ) < pinch := lt_trans (by norm_num) hp01
      norm_num [ANIMATION_CONFIG.GRAVITY_STRENGTH]
      nlinarith
    have hFle : ANIMATION_CONFIG.GRAVITY_STRENGTH * pinch ≤ 0.35 := by
      have h1 : (0 : ℝ) < pinch := lt_trans (by norm_num) hp01
      norm_num [ANIMATION_CONFIG.GRAVITY_STRENGTH]
      nlinarith
    have t := vlength_add_le s.2 (((ANIMATION_CONFIG.GRAVITY_STRENGTH * pinch) /
      vlength (tree - s.1)) • (tree - s.1))
    rw [vlength_force _ _ hF hd] at t
    linarith
  · rw [velAfterForces_pinch_near pinch tree expl r1 r2 r3 s hp01 hd]
    linarith [vlength_nonneg s.2]

/-- Claim C3 (amended): with `pinchStrength` held at 1 and zero
Brownian motion, what decays geometrically (with ratio bounded by the
damping factor) is the particle's **speed**, toward the terminal bound
`damping * gravityStrength / (1 - damping) = 3.15`:
after `n` ticks, `speed ≤ damping ^ n * initial speed + 3.15`.  The
**distance** to the tree target does not converge below every `ε` — see
the period-2 orbit counterexample. -/
theorem C3_speed_decay_bound (tree expl : Vec3) (s : Vec3 × Vec3) (n : ℕ) :
    vlength (iterPinchOne tree expl n s).2
      ≤ ANIMATION_CONFIG.DAMPING ^ n * vlength s.2 + 3.15 := by
  have hd9 : ANIMATION_CONFIG.DAMPING = (0.9 : ℝ) := by norm_num [ANIMATION_CONFIG.DAMPING]
  rw [hd9]
  induction n with
  | zero =>
    simp only [iterPinchOne, iterParticle, pow_zero, one_mul]
    linarith
  | succ n ih =>
    have hb := velAfterForces_pinch_norm_le 1 tree expl 0 0 0
      (iterPinchOne tree expl n s) (by norm_num : (1 : ℝ) > 0.01) le_rfl
    show vlength (updateParticle 1 tree expl 0 0 0 (iterPinchOne tree expl n s)).2 ≤ _
    rw [updateParticle_vel, vlength_damped, pow_succ]
    have ih9 := mul_le_mul_of_nonneg_left ih (by norm_num : (0 : ℝ) ≤ 0.9)
    have hb9 := mul_le_mul_of_nonneg_left hb (by norm_num : (0 : ℝ) ≤ 0.9)
    linarith

/-- One pinching tick at full strength for a particle on the x-axis
aiming at the origin, written in closed form: the constant-magnitude
force contributes `-0.35 * sign px` to the velocity before damping. -/
theorem updateParticle_pinch1_axis (expl : Vec3) (px vx : ℝ) (hfar : |px| > 0.01) :
    updateParticle 1 ⟨0, 0, 0⟩ expl 0 0 0 (⟨px, 0, 0⟩, ⟨vx, 0, 0⟩)
      = (⟨px + 0.9 * (vx - 0.35 * (px / |px|)), 0, 0⟩,
         ⟨0.9 * (vx - 0.35 * (px / |px|)), 0, 0⟩) := by
  have hsub : (⟨0, 0, 0⟩ : Vec3) - ((⟨px, 0, 0⟩ : Vec3), (⟨vx, 0, 0⟩ : Vec3)).1
      = ⟨-px, 0, 0⟩ := by
    rw [Vec3.sub_def]
    simp
  have hlen : vlength (⟨-px, 0, 0⟩ : Vec3) = |px| := by
    simp only [vlength]
    rw [show (-px) ^ 2 + (0 : ℝ) ^ 2 + (0 : ℝ) ^ 2 = px ^ 2 by ring]
    exact Real.sqrt_sq_eq_abs px
  have hdist : vlength ((⟨0, 0, 0⟩ : Vec3) - ((⟨px, 0, 0⟩ : Vec3), (⟨vx, 0, 0⟩ : Vec3)).1)
      > 0.01 := by
    rw [hsub, hlen]
    exact hfar
  have hvel := velAfterForces_pinch_far 1 ⟨0, 0, 0⟩ expl 0 0 0 (⟨px, 0, 0⟩, ⟨vx, 0, 0⟩)
    (by norm_num) hdist
  rw [hsub, hlen] at hvel
  have hne : |px| ≠ 0 := ne_of_gt (lt_trans (by norm_num) hfar)
  have hstep : updateParticle 1 ⟨0, 0, 0⟩ expl 0 0 0 (⟨px, 0, 0⟩, ⟨vx, 0, 0⟩)
      = ((⟨px, 0, 0⟩ : Vec3) + ANIMATION_CONFIG.DAMPING •
          velAfterForces 1 ⟨0, 0, 0⟩ expl 0 0 0 (⟨px, 0, 0⟩, ⟨vx, 0, 0⟩),
        ANIMATION_CONFIG.DAMPING •
          velAfterForces 1 ⟨0, 0, 0⟩ expl 0 0 0 (⟨px, 0, 0⟩, ⟨vx, 0, 0⟩)) := rfl
  rw [hstep, hvel]
  simp only [Vec3.smul_def, Vec3.add_def, Prod.mk.injEq, Vec3.mk.injEq]
  norm_num [ANIMATION_CONFIG.GRAVITY_STRENGTH, ANIMATION_CONFIG.DAMPING]
  ring

/-- The two states of an exact period-2 orbit of the full-pinch tick
with target at the origin: position `63/760` with velocity `63/380`,
mirrored each tick. -/
noncomputable def pinchOrbitA : Vec3 × Vec3 := (⟨63 / 760, 0, 0⟩, ⟨63 / 380, 0, 0⟩)

noncomputable def pinchOrbitB : Vec3 × Vec3 := (⟨-(63 / 760), 0, 0⟩, ⟨-(63 / 380), 0, 0⟩)

theorem iterPinchOne_succ (tree expl : Vec3) (n : ℕ) (s : Vec3 × Vec3) :
    iterPinchOne tree expl (n + 1) s
      = updateParticle 1 tree expl 0 0 0 (iterPinchOne tree expl n s) := rfl

theorem pinchOrbit_step_A :
    updateParticle 1 ⟨0, 0, 0⟩ ⟨0, 0, 0⟩ 0 0 0 pinchOrbitA = pinchOrbitB := by
  rw [pinchOrbitA, pinchOrbitB,
    updateParticle_pinch1_axis ⟨0, 0, 0⟩ (63 / 760) (63 / 380)
      (by rw [abs_of_nonneg (by norm_num : (0 : ℝ) ≤ 63 / 760)]; norm_num)]
  rw [abs_of_nonneg (by norm_num : (0 : ℝ) ≤ (63 : ℝ) / 760), Prod.mk.injEq,
    Vec3.mk.injEq, Vec3.mk.injEq]
  norm_num

theorem pinchOrbit_step_B :
    updateParticle 1 ⟨0, 0, 0⟩ ⟨0, 0, 0⟩ 0 0 0 pinchOrbitB = pinchOrbitA := by
  rw [pinchOrbitB, pinchOrbitA,
    updateParticle_pinch1_axis ⟨0, 0, 0⟩ (-(63 / 760)) (-(63 / 380))
      (by rw [abs_of_nonpos (by norm_num : (-(63 / 760) : ℝ) ≤ 0)]; norm_num)]
  rw [abs_of_nonpos (by norm_num : (-((63 : ℝ) / 760) : ℝ) ≤ 0), Prod.mk.injEq,
    Vec3.mk.injEq, Vec3.mk.injEq]
  norm_num

theorem pinchOrbit_iter (n : ℕ) :
    iterPinchOne ⟨0, 0, 0⟩ ⟨0, 0, 0⟩ n pinchOrbitA = pinchOrbitA ∨
    iterPinchOne ⟨0, 0, 0⟩ ⟨0, 0, 0⟩ n pinchOrbitA = pinchOrbitB := by
  induction n with
  | zero => exact Or.inl rfl
  | succ n ih =>
    rw [iterPinchOne_succ]
    rcases ih with h | h
    · rw [h, pinchOrbit_step_A]
      exact Or.inr rfl
    · rw [h, pinchOrbit_step_B]
      exact Or.inl rfl

theorem pinchOrbit_dist_A :
    vlength ((⟨0, 0, 0⟩ : Vec3) - pinchOrbitA.1) = 63 / 760 := by
  have hsub : (⟨0, 0, 0⟩ : Vec3) - pinchOrbitA.1 = ⟨-(63 / 760), 0, 0⟩ := by
    rw [pinchOrbitA, Vec3.sub_def]
    simp
  rw [hsub]
  simp only [vlength]
  rw [show (-((63 : ℝ) / 760)) ^ 2 + (0 : ℝ) ^ 2 + (0 : ℝ) ^ 2 = ((63 : ℝ) / 760) ^ 2 by ring]
  exact Real.sqrt_sq (by norm_num)

theorem pinchOrbit_dist_B :
    vlength ((⟨0, 0, 0⟩ : Vec3) - pinchOrbitB.1) = 63 / 760 := by
  have hsub : (⟨0, 0, 0⟩ : Vec3) - pinchOrbitB.1 = ⟨63 / 760, 0, 0⟩ := by
    rw [pinchOrbitB, Vec3.sub_def]
    simp
  rw [hsub]
  simp only [vlength]
  rw [show ((63 : ℝ) / 760) ^ 2 + (0 : ℝ) ^ 2 + (0 : ℝ) ^ 2 = ((63 : ℝ) / 760) ^ 2 by ring]
  exact Real.sqrt_sq (by norm_num)

/-- Claim C3 counterexample: with `pinchStrength = 1` held constant
and zero Brownian motion, the distance to the tree target is **not**
driven below every `ε`: the state with position `63/760` and velocity
`63/380` on the axis toward its target lies on an exact period-2 orbit
of the tick map whose distance to the target stays `63/760 ≈ 0.083`
forever, so for `ε = 1/20` no tick count ever suffices. -/
theorem C3_convergence_counterexample :
    ¬(∀ ε : ℝ, ε > 0 → ∃ N : ℕ, ∀ n, N ≤ n →
        vlength ((⟨0, 0, 0⟩ : Vec3)
          - (iterPinchOne ⟨0, 0, 0⟩ ⟨0, 0, 0⟩ n pinchOrbitA).1) ≤ ε) := by
  intro h
  obtain ⟨N, hN⟩ := h (1 / 20) (by norm_num)
  have h2 := hN N le_rfl
  have hdist : vlength ((⟨0, 0, 0⟩ : Vec3)
      - (iterPinchOne ⟨0, 0, 0⟩ ⟨0, 0, 0⟩ N pinchOrbitA).1) = 63 / 760 := by
    rcases pinchOrbit_iter N with hA | hA <;> rw [hA]
    · exact pinchOrbit_dist_A
    · exact pinchOrbit_dist_B
  rw [hdist] at h2
  norm_num at h2
